import Mathlib

/-!
Shallow embedding of the bloglist backend (src/app.js) and proofs about the
claims of its specification.

The whole HTTP application of the repository lives in src/app.js: four routes
over blogs (GET, POST, DELETE with an id, PUT with an id), an unknown-endpoint
handler and an error-translating handler.  The middlewares installed are
express.json, morgan and cors only: no middleware or handler ever reads an
Authorization header, and there is no /api/users route.  The document store
(mongoose) is the external collaborator; its find / save / findByIdAndDelete /
findByIdAndUpdate calls are embedded here as pure functions over an explicit
store state, with errors as values in Except.
-/

namespace BlogList

/-- A stored blog post.  The `user` field is the raw owner reference (an id
string), exactly as the document is stored; src/app.js never expands it. -/
structure Post where
  id : String
  title : String
  author : Option String
  url : String
  likes : Nat
  user : Option String
deriving DecidableEq, Repr

/-- A stored user record (the User model is only ever read by tests; app.js
itself never touches the users collection). -/
structure User where
  id : String
  username : String
  name : String
  passwordHash : String
  posts : List String
deriving DecidableEq, Repr

/-- The backing document store: the posts collection and the users
collection. -/
structure Store where
  posts : List Post
  users : List User
deriving DecidableEq, Repr

/-- A JavaScript error as seen by the error handler: its `name` (CastError,
ValidationError, TypeError, ...) and its `message`. -/
structure Err where
  name : String
  message : String
deriving DecidableEq, Repr

/-- A JSON response body:  nothing (for 204 end), the JSON literal null
(response.json of a null document), a single post document, a list of post
documents, or an error object with a single `error` field. -/
inductive Body where
  | empty : Body
  | jsonNull : Body
  | post : Post → Body
  | posts : List Post → Body
  | errorObj : String → Body
deriving DecidableEq, Repr

/-- An HTTP response: status code, body, and response headers. -/
structure HttpResult where
  status : Nat
  body : Body
  headers : List (String × String)
deriving DecidableEq, Repr

/-- The outcome of one request: either a response was sent (with the final
store state and the list of messages logged by the error handler), or the
error was re-raised past the error handler (next(error): Express then answers
with its default 500). -/
inductive Outcome where
  | response : HttpResult → Store → List String → Outcome
  | unhandled : Err → Store → List String → Outcome
deriving DecidableEq, Repr

/-- Status of an outcome, when a response was sent. -/
def outcomeStatus : Outcome → Option Nat
  | Outcome.response r _ _ => some r.status
  | Outcome.unhandled _ _ _ => none

/-- Final store state of an outcome. -/
def outcomeStore : Outcome → Store
  | Outcome.response _ s _ => s
  | Outcome.unhandled _ s _ => s

/-- JavaScript String.prototype.includes, needle-in-haystack, recursion on the
haystack. -/
def containsSubAux (needle : List Char) : List Char → Bool
  | [] => needle.isPrefixOf []
  | c :: cs => needle.isPrefixOf (c :: cs) || containsSubAux needle cs

/-- `strIncludes hay needle` embeds JavaScript `hay.includes(needle)`. -/
def strIncludes (hay needle : String) : Bool :=
  containsSubAux needle.toList hay.toList

/-- A valid MongoDB ObjectId shape: 24 hexadecimal characters.  An id of any
other shape makes mongoose throw a CastError when used in findById*. -/
def isValidObjectId (s : String) : Bool :=
  s.length == 24 && s.toList.all fun c =>
    c.isDigit || ('a' ≤ c && c ≤ 'f') || ('A' ≤ c && c ≤ 'F')

/-- The CastError mongoose raises when an id of invalid shape is cast to an
ObjectId. -/
def castError (id : String) : Err :=
  ⟨"CastError", "Cast to ObjectId failed for value " ++ id ++ " at path _id for model Blog"⟩

/-- The TypeError raised by `result.id` when `result` is null
(src/app.js line 43 after findByIdAndDelete returned null). -/
def nullDerefErr : Err :=
  ⟨"TypeError", "Cannot read properties of null (reading id)"⟩

/-- The JSON request body of a blog request, as the handlers read it: each
field present or absent. -/
structure BlogInput where
  title : Option String
  author : Option String
  url : Option String
  likes : Option Nat
  user : Option String
deriving DecidableEq, Repr

/-- Whether a required String path is missing: absent or the empty string
(mongoose `required` rejects the empty string too). -/
def requiredStringMissing : Option String → Bool
  | none => true
  | some v => v == ""

/-- The required paths of the Blog schema that the input fails to supply. -/
def blogValidationDetails (b : BlogInput) : List String :=
  (if requiredStringMissing b.title then ["title"] else []) ++
    (if requiredStringMissing b.url then ["url"] else [])

/-- The message of the ValidationError raised when saving an invalid blog. -/
def blogValidationMsg (b : BlogInput) : String :=
  "Blog validation failed: " ++
    String.intercalate ", " ((blogValidationDetails b).map (fun f => f ++ " is required"))

/-- Modelled from the spec: the Blog schema of models/blog.js, which is not
under src/ (only its callers in src/app.js and the tests are).  Per the spec,
`title` and `url` are required -- missing or empty fails schema validation
with a ValidationError whose message begins with "Blog validation failed" --
and `likes` defaults to 0 when absent. -/
def validateBlogInput (b : BlogInput) : Option String :=
  if (blogValidationDetails b).isEmpty then none
  else some (blogValidationMsg b)

/-- The document built by `new Blog(request.body)` once validation has passed:
`likes` defaults to 0, the generated ObjectId becomes its id. -/
def mkPost (b : BlogInput) (newId : String) : Post :=
  ⟨newId, b.title.getD "", b.author, b.url.getD "", b.likes.getD 0, b.user⟩

/-- mongoose `blog.save()`: validate against the schema, then persist. -/
def saveBlog (s : Store) (b : BlogInput) (newId : String) : Except Err (Post × Store) :=
  match validateBlogInput b with
  | some msg => Except.error ⟨"ValidationError", msg⟩
  | none =>
    let p := mkPost b newId
    Except.ok (p, ⟨s.posts ++ [p], s.users⟩)

/-- mongoose `Blog.findByIdAndDelete(id)`: CastError on a malformed id;
otherwise delete the matching document and return it, or return null when no
document matches. -/
def findByIdAndDelete (s : Store) (id : String) : Except Err (Option Post × Store) :=
  if isValidObjectId id then
    match s.posts.find? (fun q => q.id == id) with
    | some p => Except.ok (some p, ⟨s.posts.eraseP (fun q => q.id == id), s.users⟩)
    | none => Except.ok (none, s)
  else Except.error (castError id)

/-- Validation run by findByIdAndUpdate with runValidators on the updated
paths: a required path set to the empty string fails. -/
def updateValidation (b : BlogInput) : Option String :=
  let bad :=
    (if b.title == some "" then ["title"] else []) ++
      (if b.url == some "" then ["url"] else [])
  if bad.isEmpty then none
  else some ("Validation failed: " ++
    String.intercalate ", " (bad.map (fun f => f ++ " is required")))

/-- The document after applying the update body to the old document: fields
present in the body replace the stored ones. -/
def applyUpdate (old : Post) (b : BlogInput) : Post :=
  ⟨old.id, b.title.getD old.title,
    (match b.author with | some a => some a | none => old.author),
    b.url.getD old.url, b.likes.getD old.likes,
    (match b.user with | some u => some u | none => old.user)⟩

/-- mongoose `Blog.findByIdAndUpdate(id, blog, {new, runValidators, context})`:
CastError on a malformed id; null when no document matches (no error);
otherwise validate the updated paths and return the updated document. -/
def findByIdAndUpdate (s : Store) (id : String) (b : BlogInput) :
    Except Err (Option Post × Store) :=
  if isValidObjectId id then
    match s.posts.find? (fun q => q.id == id) with
    | none => Except.ok (none, s)
    | some old =>
      match updateValidation b with
      | some msg => Except.error ⟨"ValidationError", msg⟩
      | none =>
        let p := applyUpdate old b
        Except.ok (some p, ⟨s.posts.map (fun q => if q.id == id then p else q), s.users⟩)
  else Except.error (castError id)

/-- The errorHandler middleware of src/app.js lines 65-76.  It first logs the
error message (logger.error, the first component), then translates: CastError
to 400 malformatted id, ValidationError to 400 with the error message, an
error whose message includes "Cannot read properties of null" to 404 with the
message, and passes every other error on to next (no response: the second
component is none). -/
def errorHandler (error : Err) : List String × Option HttpResult :=
  ([error.message],
    if error.name = "CastError" then
      some ⟨400, Body.errorObj "malformatted id", []⟩
    else if error.name = "ValidationError" then
      some ⟨400, Body.errorObj error.message, []⟩
    else if strIncludes error.message "Cannot read properties of null" then
      some ⟨404, Body.errorObj error.message, []⟩
    else none)

/-- Route an error that a handler passed to next(exception) through the
errorHandler middleware. -/
def runErrorHandler (e : Err) (s : Store) : Outcome :=
  let r := errorHandler e
  match r.2 with
  | some resp => Outcome.response resp s r.1
  | none => Outcome.unhandled e s r.1

/-- GET /api/blogs (src/app.js lines 15-23): Blog.find({}) and respond with
the documents as stored.  No populate call: the owner reference is returned
raw, and the store is left unchanged. -/
def handleGet (s : Store) : HttpResult × Store :=
  (⟨200, Body.posts s.posts, []⟩, s)

/-- POST /api/blogs (src/app.js lines 25-34): new Blog(request.body), save,
201 with the saved document.  No token is read and no user record is
touched. -/
def handlePost (s : Store) (b : BlogInput) (newId : String) : Outcome :=
  match saveBlog s b newId with
  | Except.ok (p, s2) => Outcome.response ⟨201, Body.post p, []⟩ s2 []
  | Except.error e => runErrorHandler e s

/-- DELETE /api/blogs/:id (src/app.js lines 36-48): findByIdAndDelete, then
set the X-Deleted-Resource header to result.id and end with 204.  The guard on
an undefined/null id at line 38 is unreachable for a routed request (an
Express path parameter is always a string) and does not return, so it is not
modelled.  When no document matched, result is null and result.id throws; the
exception goes to the errorHandler.  No token is read and no ownership is
checked. -/
def handleDelete (s : Store) (id : String) : Outcome :=
  match findByIdAndDelete s id with
  | Except.error e => runErrorHandler e s
  | Except.ok (res, s2) =>
    match res with
    | some p => Outcome.response ⟨204, Body.empty, [("X-Deleted-Resource", p.id)]⟩ s2 []
    | none => runErrorHandler nullDerefErr s2

/-- PUT /api/blogs/:id (src/app.js lines 50-59): findByIdAndUpdate with
{new: true, runValidators: true, context: query}, then respond 200 with
response.json(result) -- which serialises null when no document matched. -/
def handlePut (s : Store) (id : String) (b : BlogInput) : Outcome :=
  match findByIdAndUpdate s id b with
  | Except.ok (res, s2) =>
    Outcome.response
      ⟨200, (match res with | some p => Body.post p | none => Body.jsonNull), []⟩ s2 []
  | Except.error e => runErrorHandler e s

/-- The unknownEndpoint middleware (src/app.js lines 61-63). -/
def unknownEndpoint : HttpResult :=
  ⟨404, Body.errorObj "unknown endpoint", []⟩

/-- HTTP methods used by the app. -/
inductive Method where
  | get : Method
  | post : Method
  | put : Method
  | del : Method
deriving DecidableEq, Repr

/-- Which handler a request reaches: the route table registered in src/app.js.
There is no route for /api/users at all. -/
inductive RouteChoice where
  | listBlogs : RouteChoice
  | createBlog : RouteChoice
  | deleteBlog : String → RouteChoice
  | updateBlog : String → RouteChoice
  | unknown : RouteChoice
deriving DecidableEq, Repr

/-- Express routing over the registered paths, on the path split at the
slashes. -/
def routeOf : Method → List String → RouteChoice
  | Method.get, ["api", "blogs"] => RouteChoice.listBlogs
  | Method.post, ["api", "blogs"] => RouteChoice.createBlog
  | Method.del, ["api", "blogs", id] => RouteChoice.deleteBlog id
  | Method.put, ["api", "blogs", id] => RouteChoice.updateBlog id
  | _, _ => RouteChoice.unknown

/-- One full request through the app: route, run the matched handler, or fall
through to unknownEndpoint.  The app never reads an Authorization header, so
the request model has no token field. -/
def handleRequest (s : Store) (m : Method) (segs : List String) (b : BlogInput)
    (newId : String) : Outcome :=
  match routeOf m segs with
  | RouteChoice.listBlogs =>
    let r := handleGet s
    Outcome.response r.1 r.2 []
  | RouteChoice.createBlog => handlePost s b newId
  | RouteChoice.deleteBlog id => handleDelete s id
  | RouteChoice.updateBlog id => handlePut s id b
  | RouteChoice.unknown => Outcome.response unknownEndpoint s []

/-- A user id of valid ObjectId shape, for concrete test states. -/
def uid1 : String := "5a422a851b54a676234d17f0"

/-- A post id of valid ObjectId shape, for concrete test states. -/
def pid1 : String := "5a422aa71b54a676234d17f8"

/-- A fresh ObjectId for documents created during a test request. -/
def newPid : String := "5a422b3a1b54a676234d17f9"

/-- A well-formed ObjectId matching no stored post. -/
def missingId : String := "5a422bc61b54a676234d17fc"

/-- A stored user owning post1 but with an empty posts list. -/
def user1 : User := ⟨uid1, "mluukkai", "Matti Luukkainen", "passwordhash", []⟩

/-- A stored post owned (by reference) by user1. -/
def post1 : Post :=
  ⟨pid1, "React patterns", some "Michael Chan", "https reactpatterns com", 7, some uid1⟩

/-- A concrete store: one post, one user. -/
def demoStore : Store := ⟨[post1], [user1]⟩

/-- A request body with every field absent. -/
def emptyInput : BlogInput := ⟨none, none, none, none, none⟩

/-- A valid blog request body (title and url present and non-empty). -/
def validInput : BlogInput :=
  ⟨some "First class tests", some "Robert C. Martin",
    some "http blog cleancoder com", some 10, none⟩

/-- A valid blog request body carrying an owner reference to user1. -/
def ownedInput : BlogInput :=
  ⟨some "Type wars", some "Robert C. Martin", some "http blog cleancoder com",
    some 2, some uid1⟩

/-- A blog request body with an empty title (fails schema validation). -/
def emptyTitleInput : BlogInput :=
  ⟨some "", some "Michael Chan", some "https ceramicstudio ca", some 5, none⟩

/-- If the needle is a prefix of the haystack, the haystack includes it. -/
theorem containsSubAux_of_isPrefixOf (needle l : List Char)
    (h : needle.isPrefixOf l = true) : containsSubAux needle l = true := by
  cases l with
  | nil => simpa [containsSubAux] using h
  | cons c cs => simp [containsSubAux, h]

/-- A string includes any of its prefixes. -/
theorem strIncludes_append_right (a t : String) : strIncludes (a ++ t) a = true := by
  apply containsSubAux_of_isPrefixOf
  have : (a ++ t).toList = a.toList ++ t.toList := by
    simp [String.toList, String.data_append]
  rw [this]
  exact List.isPrefixOf_iff_prefix.mpr (List.prefix_append _ _)

/-- Claim C1 (code): src/app.js installs no authentication middleware and its
POST /api/blogs handler (lines 25-34) never reads a token: a request with no
Authorization header and a valid body is accepted with 201 and the post is
created, where the claim demands 401 unauthorized and no creation.  The
request model has no token field at all because the code reads none. -/
theorem c1_post_without_token_is_accepted :
    outcomeStatus (handleRequest demoStore Method.post ["api", "blogs"] validInput newPid)
        = some 201 ∧
      (outcomeStore (handleRequest demoStore Method.post ["api", "blogs"] validInput newPid)).posts.length
        = demoStore.posts.length + 1 := by
  decide

/-- Claim C2 (code): the DELETE /api/blogs/:id handler (src/app.js lines
36-48) checks neither token nor ownership: a delete of a post owned by user1,
issued with no identity at all (so in particular on behalf of any
non-owner), deletes the post and answers 204, where the claim demands 403 and
an unchanged collection. -/
theorem c2_delete_by_non_owner_succeeds :
    outcomeStatus (handleRequest demoStore Method.del ["api", "blogs", pid1] emptyInput newPid)
        = some 204 ∧
      (outcomeStore (handleRequest demoStore Method.del ["api", "blogs", pid1] emptyInput newPid)).posts
        = [] := by
  decide

/-- Claim C3 (code): src/app.js registers no route for POST /api/users, so the
request falls through to unknownEndpoint (lines 61-63) and is answered 404
with the error body "unknown endpoint" and an unchanged store, where the claim
demands 201 with the created user. -/
theorem c3_post_api_users_unknown_endpoint :
    routeOf Method.post ["api", "users"] = RouteChoice.unknown ∧
      handleRequest demoStore Method.post ["api", "users"] emptyInput newPid
        = Outcome.response ⟨404, Body.errorObj "unknown endpoint", []⟩ demoStore [] := by
  decide

/-- Claim C4, counterexample: a PUT /api/blogs/:id with a well-formed id that
matches no stored document answers 200 (response.json(null)), not the 404 the
claim states. -/
theorem c4_put_missing_id_returns_200 :
    outcomeStatus (handlePut demoStore missingId validInput) = some 200 ∧
      outcomeStatus (handlePut demoStore missingId validInput) ≠ some 404 := by
  decide

/-- Claim C4 as amended: for every PUT /api/blogs/:id, a malformed id yields
400 with body error "malformatted id" (after logging the CastError message)
and leaves the store unchanged; a well-formed id matching no document yields
200 with the JSON body null and leaves the store unchanged. -/
theorem c4_put_id_error_mapping (s : Store) (id : String) (b : BlogInput) :
    (isValidObjectId id = false →
      handlePut s id b
        = Outcome.response ⟨400, Body.errorObj "malformatted id", []⟩ s [(castError id).message]) ∧
    (isValidObjectId id = true →
      s.posts.find? (fun q => q.id == id) = none →
      handlePut s id b = Outcome.response ⟨200, Body.jsonNull, []⟩ s []) := by
  constructor
  · intro h
    simp [handlePut, findByIdAndUpdate, h, runErrorHandler, errorHandler, castError]
  · intro h hnone
    simp [handlePut, findByIdAndUpdate, h, hnone]

/-- Witness for c4_put_id_error_mapping at concrete inputs: the malformed id
"nope" yields 400 malformatted id, and the well-formed but absent missingId
yields 200 null, both on demoStore. -/
theorem c4_put_id_error_mapping_witness :
    handlePut demoStore "nope" emptyInput
        = Outcome.response ⟨400, Body.errorObj "malformatted id", []⟩ demoStore
            [(castError "nope").message] ∧
      handlePut demoStore missingId emptyInput
        = Outcome.response ⟨200, Body.jsonNull, []⟩ demoStore [] :=
  ⟨(c4_put_id_error_mapping demoStore "nope" emptyInput).1 (by decide),
    (c4_put_id_error_mapping demoStore missingId emptyInput).2 (by decide) (by decide)⟩

/-- Claim C5: the errorHandler logs the error message (first, and in every
case, so in particular in every handled case before the response), and maps in
precedence order: CastError to 400 malformatted id; otherwise ValidationError
to 400 with the error message; otherwise a message including "Cannot read
properties of null" to 404; every other error is passed on unhandled. -/
theorem c5_error_translator_precedence (e : Err) :
    (errorHandler e).1 = [e.message] ∧
    (e.name = "CastError" →
      (errorHandler e).2 = some ⟨400, Body.errorObj "malformatted id", []⟩) ∧
    (e.name ≠ "CastError" → e.name = "ValidationError" →
      (errorHandler e).2 = some ⟨400, Body.errorObj e.message, []⟩) ∧
    (e.name ≠ "CastError" → e.name ≠ "ValidationError" →
      strIncludes e.message "Cannot read properties of null" = true →
      (errorHandler e).2 = some ⟨404, Body.errorObj e.message, []⟩) ∧
    (e.name ≠ "CastError" → e.name ≠ "ValidationError" →
      strIncludes e.message "Cannot read properties of null" = false →
      (errorHandler e).2 = none) := by
  refine ⟨rfl, ?_, ?_, ?_, ?_⟩ <;> intros <;> simp [errorHandler, *]

/-- Witness for c5_error_translator_precedence at a concrete CastError: the
message is logged and the translation is 400 malformatted id. -/
theorem c5_error_translator_precedence_witness :
    (errorHandler ⟨"CastError", "boom"⟩).1 = ["boom"] ∧
      (errorHandler ⟨"CastError", "boom"⟩).2
        = some ⟨400, Body.errorObj "malformatted id", []⟩ :=
  ⟨(c5_error_translator_precedence ⟨"CastError", "boom"⟩).1,
    (c5_error_translator_precedence ⟨"CastError", "boom"⟩).2.1 rfl⟩

/-- Claim C6, counterexample: a successful POST /api/blogs carrying an owner
reference to user1 answers 201, yet user1's posts list stays empty -- no
reference to the new post is appended to the owning user's list, and the
response body is the saved document with the raw owner reference, not an
expanded owner. -/
theorem c6_post_does_not_append_to_owner :
    outcomeStatus (handlePost demoStore ownedInput newPid) = some 201 ∧
      (outcomeStore (handlePost demoStore ownedInput newPid)).users = [user1] ∧
      user1.posts = [] := by
  decide

/-- Claim C6 as amended: for every POST /api/blogs request whose body passes
schema validation (no token required, none is read), the post is persisted
(appended to the posts collection, likes defaulting to 0) and the response is
HTTP 201 containing the saved document exactly as stored -- the owner
reference is not expanded and no user record is modified. -/
theorem c6_post_success_amended (s : Store) (b : BlogInput) (nid : String)
    (hok : validateBlogInput b = none) :
    handlePost s b nid
      = Outcome.response ⟨201, Body.post (mkPost b nid), []⟩
          ⟨s.posts ++ [mkPost b nid], s.users⟩ [] := by
  simp [handlePost, saveBlog, hok]

/-- Witness for c6_post_success_amended: posting validInput on demoStore. -/
theorem c6_post_success_amended_witness :
    handlePost demoStore validInput newPid
      = Outcome.response ⟨201, Body.post (mkPost validInput newPid), []⟩
          ⟨demoStore.posts ++ [mkPost validInput newPid], demoStore.users⟩ [] :=
  c6_post_success_amended demoStore validInput newPid (by decide)

/-- Claim C7 (code): GET /api/blogs (src/app.js lines 15-23) responds with the
stored documents unchanged -- post1's user field is still the raw reference
string uid1, not an expanded object with id, username and name (the handler
calls Blog.find({}) with no populate) -- and the store is returned untouched
(the no-side-effect half of the claim holds). -/
theorem c7_get_returns_unexpanded_posts :
    handleGet demoStore = (⟨200, Body.posts [post1], []⟩, demoStore) ∧
      post1.user = some uid1 := by
  decide

/-- Claim C8: a POST /api/blogs whose title or url is missing or empty is
answered 400 with an error body that includes "Blog validation failed" (the
ValidationError message, logged by the errorHandler), and the store is
unchanged -- no partial write. -/
theorem c8_post_validation_failure (s : Store) (b : BlogInput) (nid : String)
    (hbad : (requiredStringMissing b.title || requiredStringMissing b.url) = true) :
    handlePost s b nid
        = Outcome.response ⟨400, Body.errorObj (blogValidationMsg b), []⟩ s
            [blogValidationMsg b] ∧
      strIncludes (blogValidationMsg b) "Blog validation failed" = true := by
  constructor
  · have hne : (blogValidationDetails b).isEmpty = false := by
      rcases Bool.or_eq_true_iff.mp hbad with h | h <;>
        simp [blogValidationDetails, h]
    simp [handlePost, saveBlog, validateBlogInput, hne, runErrorHandler, errorHandler]
  · have : blogValidationMsg b
        = "Blog validation failed" ++
          (": " ++ String.intercalate ", "
            ((blogValidationDetails b).map (fun f => f ++ " is required"))) := by
      rw [blogValidationMsg, ← String.append_assoc]
      congr 1
    rw [this]
    exact strIncludes_append_right _ _

/-- Witness for c8_post_validation_failure: posting an empty title on
demoStore. -/
theorem c8_post_validation_failure_witness :
    (handlePost demoStore emptyTitleInput newPid
        = Outcome.response ⟨400, Body.errorObj (blogValidationMsg emptyTitleInput), []⟩
            demoStore [blogValidationMsg emptyTitleInput] ∧
      strIncludes (blogValidationMsg emptyTitleInput) "Blog validation failed" = true) :=
  c8_post_validation_failure demoStore emptyTitleInput newPid (by decide)

/-- Claim C9: a DELETE /api/blogs/:id that succeeds (well-formed id matching a
stored post) removes that post from the store and answers 204 with an empty
body and the X-Deleted-Resource header carrying the deleted post's id (which
equals the requested id). -/
theorem c9_delete_success (s : Store) (id : String) (p : Post)
    (hvalid : isValidObjectId id = true)
    (hfind : s.posts.find? (fun q => q.id == id) = some p) :
    handleDelete s id
        = Outcome.response ⟨204, Body.empty, [("X-Deleted-Resource", p.id)]⟩
            ⟨s.posts.eraseP (fun q => q.id == id), s.users⟩ [] ∧
      p.id = id := by
  have hid : p.id = id := by
    have := List.find?_some hfind
    simpa using this
  refine ⟨?_, hid⟩
  simp [handleDelete, findByIdAndDelete, hvalid, hfind]

/-- Witness for c9_delete_success: deleting post1 by its id on demoStore. -/
theorem c9_delete_success_witness :
    (handleDelete demoStore pid1
        = Outcome.response ⟨204, Body.empty, [("X-Deleted-Resource", post1.id)]⟩
            ⟨demoStore.posts.eraseP (fun q => q.id == pid1), demoStore.users⟩ [] ∧
      post1.id = pid1) :=
  c9_delete_success demoStore pid1 post1 (by decide) (by decide)

/-- Claim C10: a DELETE /api/blogs/:id with a well-formed id matching no
stored post makes findByIdAndDelete return a null document, dereferencing its
id field throws the null-dereference TypeError, and the error translator
answers 404 (not 204) with the message logged; the posts collection is
unchanged. -/
theorem c10_delete_missing_id_404 (s : Store) (id : String)
    (hvalid : isValidObjectId id = true)
    (hmiss : s.posts.find? (fun q => q.id == id) = none) :
    findByIdAndDelete s id = Except.ok (none, s) ∧
      handleDelete s id
        = Outcome.response ⟨404, Body.errorObj nullDerefErr.message, []⟩ s
            [nullDerefErr.message] := by
  have hfd : findByIdAndDelete s id = Except.ok (none, s) := by
    simp [findByIdAndDelete, hvalid, hmiss]
  refine ⟨hfd, ?_⟩
  have heh : errorHandler nullDerefErr
      = ([nullDerefErr.message], some ⟨404, Body.errorObj nullDerefErr.message, []⟩) := by
    decide
  simp [handleDelete, hfd, runErrorHandler, heh]

/-- Witness for c10_delete_missing_id_404: deleting missingId on demoStore. -/
theorem c10_delete_missing_id_404_witness :
    (findByIdAndDelete demoStore missingId = Except.ok (none, demoStore) ∧
      handleDelete demoStore missingId
        = Outcome.response ⟨404, Body.errorObj nullDerefErr.message, []⟩ demoStore
            [nullDerefErr.message]) :=
  c10_delete_missing_id_404 demoStore missingId (by decide) (by decide)

end BlogList
